import Mathlib

/-!
Shallow embedding of the BS-3 bookstore backend (TypeScript/Express/Prisma)
and verification of spec claims about its auth flow, routing and filtering.

Numeric database values (SERIAL ids, DOUBLE PRECISION prices, INTEGER stock)
are modelled as `Int`; dates are modelled as their ISO strings.
-/

namespace BS3

/-! ## Data model, from prisma/schema.prisma -/

structure User where
  id : Int
  login : String
  password : String
  deriving DecidableEq, Repr

structure UserType where
  id : Int
  title : String
  is_admin : Bool := false
  is_menejer : Bool := false
  is_user : Bool := false
  deriving DecidableEq, Repr

structure CrmCard where
  id : Int
  user_name : Option String := none
  user_surname : Option String := none
  user_patronymic : Option String := none
  title_card : Option String := none
  active : Bool := false
  card_photo : Option String := none
  user_id : Int
  user_type_id : Int
  birthday : Option String := none
  deriving DecidableEq, Repr

structure Book where
  id : Int
  title : String
  description : String
  price : Int
  published_at : String
  stock : Int
  author_id : Option Int := none
  category_id : Option Int := none
  publisher_id : Option Int := none
  deriving DecidableEq, Repr

structure CrmAddress where
  id : Int
  country : String
  city : String
  street : String
  house : String
  apartment : String
  crm_crard_id : Int
  deriving DecidableEq, Repr

/-- The relational store, one table per entity the claims touch, with the
SERIAL counters for id assignment. -/
structure Db where
  users : List User := []
  userTypes : List UserType := []
  crmCards : List CrmCard := []
  books : List Book := []
  crmAddresses : List CrmAddress := []
  nextUserId : Int := 1
  nextCrmCardId : Int := 1
  nextBookId : Int := 1
  nextCrmAddressId : Int := 1
  deriving DecidableEq, Repr

/-! ## JSON request bodies and the express-validator chains

A request body is a list of (field, value) pairs; values carry the JSON
type the validators care about (string / number / boolean).  Numbers are
modelled as `Int`. -/

inductive JsonVal where
  | str (s : String)
  | int (n : Int)
  | bool (b : Bool)
  deriving DecidableEq, Repr

abbrev ReqBody := List (String × JsonVal)

def getField (b : ReqBody) (k : String) : Option JsonVal :=
  (b.find? (fun p => p.1 == k)).map Prod.snd

def getStr (b : ReqBody) (k : String) : String :=
  match getField b k with
  | some (.str s) => s
  | _ => ""

/-- Digit-string parsing over the character list (kernel-computable stand-in
for the library string-to-number conversions). -/
def parseNatChars (cs : List Char) : Option Nat :=
  if cs ≠ [] ∧ cs.all Char.isDigit then
    some (cs.foldl (fun n c => n * 10 + (c.toNat - '0'.toNat)) 0)
  else none

def strToInt (s : String) : Option Int :=
  match s.toList with
  | '-' :: rest => (parseNatChars rest).map (fun n => -(n : Int))
  | cs => (parseNatChars cs).map (fun n => (n : Int))

def getNum (b : ReqBody) (k : String) : Int :=
  match getField b k with
  | some (.int n) => n
  | some (.str s) => (strToInt s).getD 0
  | _ => 0

def getOptInt (b : ReqBody) (k : String) : Option Int :=
  match getField b k with
  | some (.int n) => some n
  | some (.str s) => strToInt s
  | _ => none

/-- Chain `body(k).notEmpty().isString()`: an error entry for `k` when the field
is missing, not a string, or the empty string. -/
def checkStringField (b : ReqBody) (k : String) : List String :=
  match getField b k with
  | some (.str s) => if s = "" then [k] else []
  | _ => [k]

/-- Chain `body(k).notEmpty().isInt()`: integers pass; strings pass when they
parse as an integer; anything else (or missing) errors. -/
def checkIntField (b : ReqBody) (k : String) : List String :=
  match getField b k with
  | some (.int _) => []
  | some (.str s) => if (strToInt s).isSome then [] else [k]
  | _ => [k]

/-- Chain `body(k).notEmpty().isFloat()`; numerals are modelled as integers. -/
def checkFloatField (b : ReqBody) (k : String) : List String :=
  checkIntField b k

/-- Splitting a character list at a separator (`"" → [""]`-style JS
semantics). -/
def splitChars (sep : Char) : List Char → List (List Char)
  | [] => [[]]
  | c :: cs =>
      let r := splitChars sep cs
      if c = sep then [] :: r
      else
        match r with
        | [] => [[c]]
        | w :: ws => (c :: w) :: ws

/-- Simplified model of validator.js ISO8601 date checking: a
`YYYY-MM-DD` shaped string passes. -/
def isIso8601Date (s : String) : Bool :=
  match splitChars '-' s.toList with
  | [y, m, d] =>
      y.length = 4 && m.length = 2 && d.length = 2 &&
      (y ++ m ++ d).all Char.isDigit
  | _ => false

/-- Chain `body(k).notEmpty().isISO8601().toDate()`. -/
def checkDateField (b : ReqBody) (k : String) : List String :=
  match getField b k with
  | some (.str s) => if isIso8601Date s then [] else [k]
  | _ => [k]

/-- Chain `body(k).if(body(k).notEmpty()).isInt()`: only validated when present
and non-empty. -/
def checkOptIntField (b : ReqBody) (k : String) : List String :=
  match getField b k with
  | none => []
  | some (.str s) =>
      if s = "" then [] else if (strToInt s).isSome then [] else [k]
  | some (.int _) => []
  | some (.bool _) => [k]

/-! ## External collaborators: bcrypt and Prisma

bcrypt is modelled by a deterministic injective hash; `compare` succeeds
exactly when the stored hash is the hash of the supplied plaintext. -/

def bcryptHash (plain : String) : String := "$2b$05$" ++ plain

def bcryptCompare (plain hash : String) : Bool := bcryptHash plain == hash

/-- Prisma P2002 failure message (unique constraint violation). -/
def uniqueConstraintMsg : String := "Unique constraint failed on the fields: (login)"

/-- Prisma P2003 failure message (foreign key violation). -/
def foreignKeyMsg : String := "Foreign key constraint failed"

/-- Prisma P2025 failure message: `update`/`delete` on a missing row throws
rather than returning null. -/
def recordNotFoundMsg : String := "Record to update not found."

/-- Store call `prisma.user.create`: throws P2002 when the unique login exists. -/
def prismaUserCreate (db : Db) (login hashed : String) :
    Except String (User × Db) :=
  if db.users.any (fun u => u.login == login) then
    .error uniqueConstraintMsg
  else
    let u : User := ⟨db.nextUserId, login, hashed⟩
    .ok (u, { db with users := db.users ++ [u], nextUserId := db.nextUserId + 1 })

/-- Store call `prisma.user.findUnique` by login. -/
def prismaUserFindUnique (db : Db) (login : String) : Option User :=
  db.users.find? (fun u => u.login == login)

/-- Store call `prisma.userType.findFirst` on the `is_user` flag. -/
def prismaUserTypeFindFirst (db : Db) : Option UserType :=
  db.userTypes.find? (fun t => t.is_user)

/-- Store call `prisma.crmCard.create` with only the two foreign keys: the other
columns are nullable or defaulted in the schema; Prisma enforces the two
foreign keys. -/
def prismaCrmCardCreate (db : Db) (uid tid : Int) :
    Except String (CrmCard × Db) :=
  if !(db.users.any (fun u => u.id == uid)) then .error foreignKeyMsg
  else if !(db.userTypes.any (fun t => t.id == tid)) then .error foreignKeyMsg
  else
    let c : CrmCard := { id := db.nextCrmCardId, user_id := uid, user_type_id := tid }
    .ok (c, { db with crmCards := db.crmCards ++ [c],
                      nextCrmCardId := db.nextCrmCardId + 1 })

/-- Store call `prisma.crmCard.findFirst` by user id. -/
def prismaCrmCardFindFirst (db : Db) (uid : Int) : Option CrmCard :=
  db.crmCards.find? (fun c => c.user_id == uid)

/-- The fields PUT/POST bodies carry for a Book (`Omit<Book, 'id'>`). -/
structure BookData where
  title : String
  description : String
  price : Int
  published_at : String
  stock : Int
  author_id : Option Int := none
  category_id : Option Int := none
  publisher_id : Option Int := none
  deriving DecidableEq, Repr

/-- Store call `prisma.book.update`: throws P2025 when no row
has the id; otherwise replaces the data columns of that row. -/
def prismaBookUpdate (db : Db) (id : Int) (d : BookData) :
    Except String (Book × Db) :=
  match db.books.find? (fun b => b.id == id) with
  | none => .error recordNotFoundMsg
  | some _ =>
      let row : Book :=
        { id := id, title := d.title, description := d.description,
          price := d.price, published_at := d.published_at, stock := d.stock,
          author_id := d.author_id, category_id := d.category_id,
          publisher_id := d.publisher_id }
      .ok (row, { db with books := db.books.map (fun b => if b.id == id then row else b) })

/-- Store call `prisma.book.findUnique` by id. -/
def prismaBookFindUnique (db : Db) (id : Int) : Option Book :=
  db.books.find? (fun b => b.id == id)

/-! ## JS numbers at the filter route

`Number(s)` on a query-string value yields a number or NaN; `0` and NaN are
falsy. -/

inductive JsNum where
  | num (n : Int)
  | nan
  deriving DecidableEq, Repr

def jsTruthy : JsNum → Bool
  | .num n => n != 0
  | .nan => false

/-- JS `Number(s)` for a non-empty query string (integer-valued model). -/
def jsNumber (s : String) : JsNum :=
  match strToInt s with
  | some n => .num n
  | none => .nan

/-! ## Controllers -/

/-- Shape of `exclude(user, ['password'])` from utils/func.ts applied to a User. -/
structure SanitizedUser where
  id : Int
  login : String
  deriving DecidableEq, Repr

def excludePassword (u : User) : SanitizedUser := ⟨u.id, u.login⟩

/-- Payload `{ user, user_crm }` returned by the auth controllers. -/
structure AuthPayload where
  user : SanitizedUser
  user_crm : Option CrmCard
  deriving DecidableEq, Repr

/-- auth.controller.ts `signup`: hash the password, create the User (the
store rejects a duplicate login), find the UserType flagged `is_user`,
fail with `UserType not found` when none exists, create the CrmCard
linking user to that type, and return the sanitized user plus the card. -/
def signup (db : Db) (login password : String) :
    Except String (AuthPayload × Db) := do
  let hash := bcryptHash password
  let (user, db1) ← prismaUserCreate db login hash
  match prismaUserTypeFindFirst db1 with
  | none => .error "UserType not found"
  | some userType => do
      let (crmCard, db2) ← prismaCrmCardCreate db1 user.id userType.id
      .ok (⟨excludePassword user, some crmCard⟩, db2)

/-- auth.controller.ts `signin`: look up by login (`User not found` when
absent), compare the password with the stored hash (`Invalid password` on
mismatch), then return the sanitized user plus their first CrmCard. -/
def signin (db : Db) (login password : String) : Except String AuthPayload :=
  match prismaUserFindUnique db login with
  | none => .error "User not found"
  | some user =>
      if bcryptCompare password user.password then
        .ok ⟨excludePassword user, prismaCrmCardFindFirst db user.id⟩
      else
        .error "Invalid password"

/-- book.controller.ts `getBookByFilter` filter record; `undefined`
parameters are `none`. -/
structure BookFilters where
  author_id : Option JsNum := none
  category_id : Option JsNum := none
  publisher_id : Option JsNum := none
  min_price : Option JsNum := none
  max_price : Option JsNum := none
  deriving DecidableEq, Repr

/-- The `where` object the controller builds: an id constraint is added
only for a truthy value (`if (author_id) ...`), while the price bounds are
added whenever defined (`if (min_price !== undefined) ...`). -/
structure BookWhere where
  author_id : Option JsNum := none
  category_id : Option JsNum := none
  publisher_id : Option JsNum := none
  price_gte : Option JsNum := none
  price_lte : Option JsNum := none
  deriving DecidableEq, Repr

def keepTruthy (v : Option JsNum) : Option JsNum :=
  match v with
  | some x => if jsTruthy x then some x else none
  | none => none

def buildWhere (f : BookFilters) : BookWhere :=
  { author_id := keepTruthy f.author_id,
    category_id := keepTruthy f.category_id,
    publisher_id := keepTruthy f.publisher_id,
    price_gte := f.min_price,
    price_lte := f.max_price }

/-- Store semantics of an equality condition on a nullable integer column:
NaN compares equal to nothing, and a NULL column matches no number. -/
def idMatches (v : JsNum) (fld : Option Int) : Bool :=
  match v, fld with
  | .num n, some m => n == m
  | _, _ => false

def geOk (bound : Option JsNum) (price : Int) : Bool :=
  match bound with
  | none => true
  | some (.num n) => n ≤ price
  | some .nan => false

def leOk (bound : Option JsNum) (price : Int) : Bool :=
  match bound with
  | none => true
  | some (.num n) => price ≤ n
  | some .nan => false

def matchesWhere (w : BookWhere) (b : Book) : Bool :=
  (match w.author_id with | none => true | some v => idMatches v b.author_id) &&
  (match w.category_id with | none => true | some v => idMatches v b.category_id) &&
  (match w.publisher_id with | none => true | some v => idMatches v b.publisher_id) &&
  geOk w.price_gte b.price && leOk w.price_lte b.price

/-- book.controller.ts `getBookByFilter`: `findMany` under the built
`where` object (the eager `include`s do not change which rows return). -/
def getBookByFilter (db : Db) (f : BookFilters) : List Book :=
  db.books.filter (matchesWhere (buildWhere f))

/-! ## HTTP responses and routes -/

inductive RespBody where
  /-- JSON `{ message }` bodies (404/500 and delete confirmations). -/
  | message (m : String)
  /-- JSON validation bodies `{ errors: [...] }`, abbreviated to the offending
  field names. -/
  | fieldErrors (fields : List String)
  /-- Auth payload `{ user, user_crm }` from the auth routes. -/
  | auth (p : AuthPayload)
  | books (bs : List Book)
  | book (b : Book)
  | address (a : CrmAddress)
  deriving DecidableEq, Repr

structure HttpResponse where
  status : Nat
  body : RespBody
  deriving DecidableEq, Repr

/-- Validation chain on POST /auth/signup and POST /auth/signin. -/
def authValidate (b : ReqBody) : List String :=
  checkStringField b "login" ++ checkStringField b "password"

/-- auth.routes.ts POST /auth/signup: 400 on validation errors, 201 with
the controller payload on success, 500 with the thrown message otherwise. -/
def signupRoute (db : Db) (b : ReqBody) : HttpResponse × Db :=
  let errs := authValidate b
  if errs.isEmpty then
    match signup db (getStr b "login") (getStr b "password") with
    | .ok (payload, db2) => (⟨201, .auth payload⟩, db2)
    | .error msg => (⟨500, .message msg⟩, db)
  else (⟨400, .fieldErrors errs⟩, db)

/-- auth.routes.ts POST /auth/signin: 400 on validation errors, 201 with
the controller payload on success, 500 with the thrown message otherwise. -/
def signinRoute (db : Db) (b : ReqBody) : HttpResponse :=
  let errs := authValidate b
  if errs.isEmpty then
    match signin db (getStr b "login") (getStr b "password") with
    | .ok payload => ⟨201, .auth payload⟩
    | .error msg => ⟨500, .message msg⟩
  else ⟨400, .fieldErrors errs⟩

/-- The success status the swagger block above POST /auth/signin documents. -/
def signinSwaggerSuccessStatus : Nat := 200

/-- Validation chain on POST /book and PUT /book/:id. -/
def bookValidate (b : ReqBody) : List String :=
  checkStringField b "title" ++ checkStringField b "description" ++
  checkFloatField b "price" ++ checkDateField b "published_at" ++
  checkIntField b "stock" ++ checkOptIntField b "author_id" ++
  checkOptIntField b "category_id" ++ checkOptIntField b "publisher_id"

def bookDataOfBody (b : ReqBody) : BookData :=
  { title := getStr b "title", description := getStr b "description",
    price := getNum b "price", published_at := getStr b "published_at",
    stock := getNum b "stock", author_id := getOptInt b "author_id",
    category_id := getOptInt b "category_id",
    publisher_id := getOptInt b "publisher_id" }

/-- book.routes.ts PUT /book/:id.  The handler's
`if (!updatedRecord) return 404` null check never fires, because
`prisma.book.update` throws on a missing row instead of returning null;
that throw lands in the catch block as a 500. -/
def updateBookRoute (db : Db) (id : Int) (b : ReqBody) : HttpResponse × Db :=
  let errs := bookValidate b
  if errs.isEmpty then
    match prismaBookUpdate db id (bookDataOfBody b) with
    | .ok (row, db2) => (⟨200, .book row⟩, db2)
    | .error msg => (⟨500, .message msg⟩, db)
  else (⟨400, .fieldErrors errs⟩, db)

/-- The response statuses the swagger block above PUT /book/:id documents. -/
def bookPutSwaggerStatuses : List Nat := [200, 400, 404, 500]

/-- book.routes.ts GET /book/get/:id: 404 when `findUnique` returns null,
200 with the row otherwise. -/
def getBookByIdRoute (db : Db) (id : Int) : HttpResponse :=
  match prismaBookFindUnique db id with
  | none => ⟨404, .message "CRM card not found"⟩
  | some b => ⟨200, .book b⟩

/-- book.routes.ts GET /book/filters: each query parameter is a raw string;
a falsy (absent or empty) value becomes `undefined`, anything else goes
through `Number`. -/
def qParam (v : Option String) : Option JsNum :=
  match v with
  | some s => if s = "" then none else some (jsNumber s)
  | none => none

def filtersFromQuery (author_id category_id publisher_id min_price max_price :
    Option String) : BookFilters :=
  { author_id := qParam author_id, category_id := qParam category_id,
    publisher_id := qParam publisher_id, min_price := qParam min_price,
    max_price := qParam max_price }

def bookFiltersRoute (db : Db)
    (author_id category_id publisher_id min_price max_price : Option String) :
    HttpResponse :=
  ⟨200, .books (getBookByFilter db
    (filtersFromQuery author_id category_id publisher_id min_price max_price))⟩

/-- Validation chain on PUT /crm_address/:id, exactly as registered in the
route file: it checks the payment-card fields, not the address fields. -/
def crmAddressPutValidate (b : ReqBody) : List String :=
  checkStringField b "card_title" ++ checkStringField b "card_number" ++
  checkDateField b "date_end" ++ checkIntField b "crm_crard_id"

/-- The fields the PUT /crm_address/:id validators name. -/
def crmAddressPutValidatedFields : List String :=
  ["card_title", "card_number", "date_end", "crm_crard_id"]

/-- The fields the POST /crm_address validators name (the address fields). -/
def crmAddressPostValidatedFields : List String :=
  ["country", "city", "street", "house", "apartment", "crm_crard_id"]

/-- Store call `prisma.crmAddress.update` (P2025 throw on a missing row). -/
def prismaCrmAddressUpdate (db : Db) (id : Int) (a : CrmAddress) :
    Except String (CrmAddress × Db) :=
  match db.crmAddresses.find? (fun r => r.id == id) with
  | none => .error recordNotFoundMsg
  | some _ =>
      .ok (a, { db with crmAddresses :=
        db.crmAddresses.map (fun r => if r.id == id then a else r) })

/-- crmAddress.routes.ts PUT /crm_address/:id: validation first (400 with
the field errors, store untouched), then the controller update. -/
def updateCrmAddressRoute (db : Db) (id : Int) (b : ReqBody) :
    HttpResponse × Db :=
  let errs := crmAddressPutValidate b
  if errs.isEmpty then
    let a : CrmAddress :=
      { id := id, country := getStr b "country", city := getStr b "city",
        street := getStr b "street", house := getStr b "house",
        apartment := getStr b "apartment",
        crm_crard_id := (getOptInt b "crm_crard_id").getD 0 }
    match prismaCrmAddressUpdate db id a with
    | .ok (row, db2) => (⟨200, .address row⟩, db2)
    | .error msg => (⟨500, .message msg⟩, db)
  else (⟨400, .fieldErrors errs⟩, db)

/-! ## Authentication gate (jwt.middleware.ts) -/

/-- The decoded token payload (`{ id, username }`, from utils/jwt.ts). -/
structure Claims where
  id : Int
  username : String
  deriving DecidableEq, Repr

/-- JS `String.prototype.split(" ")` (`"" → [""]`, `"a b" → ["a", "b"]`,
`"a " → ["a", ""]`). -/
def jsSplitSpace (s : String) : List String :=
  (splitChars ' ' s.toList).map (fun l => String.mk l)

/-- Expression `authHeader && authHeader.split(" ")[1]`: the part after the first
space, `undefined`/falsy when the header is absent, empty, or has no
second part. -/
def extractBearer (authHeader : Option String) : Option String :=
  match authHeader with
  | none => none
  | some h => (jsSplitSpace h).get? 1

/-- Truthiness of the extracted token (`if (!token)`). -/
def tokenOf (authHeader : Option String) : Option String :=
  match extractBearer authHeader with
  | some t => if t = "" then none else some t
  | none => none

/-- jwt.middleware.ts `authenticateToken`, parameterized by `jwt.verify`:
401 without a token, 403 when verification fails, otherwise the claims are
attached (`req.user = user`) and the guarded handler runs. -/
def authenticateToken (verify : String → Except String Claims)
    (authHeader : Option String) (handler : Claims → HttpResponse) :
    HttpResponse :=
  match tokenOf authHeader with
  | none => ⟨401, .message "Token required"⟩
  | some t =>
      match verify t with
      | .error _ => ⟨403, .message "Invalid or expired token"⟩
      | .ok claims => handler claims

/-! ## Route mounting (api.routes.ts) -/

/-- The `apiRoutes.use(...)` mount table: path prefix paired with whether
`authenticateToken` is interposed.  Only `/author` is guarded; `/book`,
`/order`, `/order_status` and `/order_item` are never mounted. -/
def apiRoutes : List (String × Bool) :=
  [("/auth", false), ("/user_type", false), ("/crm_card", false),
   ("/crm_email", false), ("/crm_payment_card", false),
   ("/crm_address", false), ("/author", true), ("/categories", false),
   ("/publishers", false)]

/-- The swagger tag names declared in api.routes.ts. -/
def apiSwaggerTags : List String :=
  ["User", "User Type", "CRM Cards", "Crm Email", "Crm Payment Card",
   "Crm Address", "Author", "Categories", "Publishers", "Book",
   "OrderStatus", "Order", "OrderItem"]

/-- Dispatch of a request prefix through the mount table: `none` when no
router is mounted there (Express falls through); an unguarded router's
handler runs with no claims and the Authorization header never read; a
guarded router goes through `authenticateToken`. -/
def routeRequest (verify : String → Except String Claims) (pfx : String)
    (authHeader : Option String) (handler : Option Claims → HttpResponse) :
    Option HttpResponse :=
  match apiRoutes.find? (fun r => r.1 == pfx) with
  | none => none
  | some (_, guarded) =>
      if guarded then
        some (authenticateToken verify authHeader (fun c => handler (some c)))
      else some (handler none)

/-! ## Concrete stores and helpers used by the theorems -/

/-- A store holding one signed-up user (login `alice`, password `pw`),
the default user role, and alice's CRM card. -/
def demoDb : Db :=
  { users := [⟨1, "alice", bcryptHash "pw"⟩],
    userTypes := [{ id := 1, title := "user", is_user := true }],
    crmCards := [{ id := 1, user_id := 1, user_type_id := 1 }],
    nextUserId := 2, nextCrmCardId := 2 }

/-- A verifier accepting exactly the token `tok`. -/
def demoVerify : String → Except String Claims :=
  fun t => if t = "tok" then .ok ⟨1, "alice"⟩ else .error "jwt malformed"

def demoHandler : Claims → HttpResponse := fun c => ⟨200, .message c.username⟩

def demoOptHandler : Option Claims → HttpResponse := fun _ => ⟨200, .message "ok"⟩

/-- Request body `{login, password}`. -/
def authBody (login password : String) : ReqBody :=
  [("login", JsonVal.str login), ("password", JsonVal.str password)]

def demoBook : Book :=
  { id := 1, title := "T", description := "D", price := 15,
    published_at := "2020-01-01", stock := 1 }

/-! ## Claim theorems -/

/-- C3: on a route guarded by `authenticateToken`, a request without a
bearer token gets 401 no matter what the handler would do; a request whose
token fails verification gets 403 no matter what the handler would do; and
a request with a verified token gets exactly the handler's result on the
decoded claims. -/
theorem authenticateToken_spec
    (verify : String → Except String Claims) (h : Option String)
    (handler : Claims → HttpResponse) :
    (tokenOf h = none →
      authenticateToken verify h handler = ⟨401, .message "Token required"⟩) ∧
    (∀ t e, tokenOf h = some t → verify t = .error e →
      authenticateToken verify h handler =
        ⟨403, .message "Invalid or expired token"⟩) ∧
    (∀ t c, tokenOf h = some t → verify t = .ok c →
      authenticateToken verify h handler = handler c) := by
  refine ⟨?_, ?_, ?_⟩
  · intro hn
    simp [authenticateToken, hn]
  · intro t e ht hv
    simp [authenticateToken, ht, hv]
  · intro t c ht hv
    simp [authenticateToken, ht, hv]

/-- The C3 theorem at concrete inputs: a missing header, a bad token and
the good token. -/
theorem authenticateToken_spec_witness :
    authenticateToken demoVerify none demoHandler =
      ⟨401, .message "Token required"⟩ ∧
    authenticateToken demoVerify (some "Bearer bad") demoHandler =
      ⟨403, .message "Invalid or expired token"⟩ ∧
    authenticateToken demoVerify (some "Bearer tok") demoHandler =
      demoHandler ⟨1, "alice"⟩ :=
  ⟨(authenticateToken_spec demoVerify none demoHandler).1 (by decide),
   (authenticateToken_spec demoVerify (some "Bearer bad") demoHandler).2.1
     "bad" "jwt malformed" (by decide) (by simp [demoVerify]),
   (authenticateToken_spec demoVerify (some "Bearer tok") demoHandler).2.2
     "tok" ⟨1, "alice"⟩ (by decide) (by simp [demoVerify])⟩

/-- C8: in the api.routes.ts mount table the auth gate sits on `/author`
and nowhere else, and a request to any unguarded mounted prefix returns
the handler's result for every Authorization header, the header never
being consulted. -/
theorem only_author_guarded :
    (∀ r ∈ apiRoutes, r.2 = true ↔ r.1 = "/author") ∧
    (∀ (verify : String → Except String Claims) (hdr : Option String)
       (handler : Option Claims → HttpResponse) (r : String × Bool),
       r ∈ apiRoutes → r.2 = false →
       routeRequest verify r.1 hdr handler = some (handler none)) := by
  refine ⟨by decide, ?_⟩
  intro verify hdr handler r hr hb
  fin_cases hr <;> simp_all [routeRequest, apiRoutes]

/-- The C8 theorem applied to the `/categories` mount with an arbitrary
header present. -/
theorem only_author_guarded_witness :
    routeRequest demoVerify "/categories" (some "Bearer bad") demoOptHandler =
      some (demoOptHandler none) :=
  only_author_guarded.2 demoVerify (some "Bearer bad") demoOptHandler
    ("/categories", false) (by decide) (by decide)

/-- C6 (code bug): the API router mounts no router at `/book` or `/order`
— a request there matches nothing and never reaches the entity's CRUD
handlers — even though api.routes.ts's own swagger tags document the Book
and Order APIs and the router files exist. -/
theorem book_order_routes_not_mounted :
    apiRoutes.find? (fun r => r.1 == "/book") = none ∧
    apiRoutes.find? (fun r => r.1 == "/order") = none ∧
    "Book" ∈ apiSwaggerTags ∧ "Order" ∈ apiSwaggerTags ∧
    (∀ verify hdr handler, routeRequest verify "/book" hdr handler = none) ∧
    (∀ verify hdr handler, routeRequest verify "/order" hdr handler = none) := by
  have hb : apiRoutes.find? (fun r => r.1 == "/book") = none := by decide
  have ho : apiRoutes.find? (fun r => r.1 == "/order") = none := by decide
  refine ⟨hb, ho, by decide, by decide, ?_, ?_⟩
  · intro verify hdr handler
    unfold routeRequest
    rw [hb]
  · intro verify hdr handler
    unfold routeRequest
    rw [ho]

/-- C7 (code bug): a successful signin answers 201, although signin
creates no row, the route family reserves 201 for creates (reads answer
200, as GET /book/get/:id shows), and the signin swagger block itself
documents 200. -/
theorem signin_success_status_201 :
    (signinRoute demoDb (authBody "alice" "pw")).status = 201 ∧
    signinSwaggerSuccessStatus = 200 ∧
    (getBookByIdRoute { demoDb with books := [demoBook] } 1).status = 200 ∧
    (201 : Nat) ≠ 200 := by
  decide

/-- C2: POST /auth/signin answers the `User not found` failure when no
user has the login, the `Invalid password` failure when the password does
not hash to the stored value, and on success the sanitized user (no
password field) plus the linked CRM card; the two failure responses
differ from each other, and every validation failure is told apart by its
status and body shape. -/
theorem signin_spec (db : Db) (login password : String)
    (hl : login ≠ "") (hp : password ≠ "") :
    (prismaUserFindUnique db login = none →
       signinRoute db (authBody login password) =
         ⟨500, .message "User not found"⟩) ∧
    (∀ u, prismaUserFindUnique db login = some u →
       bcryptCompare password u.password = false →
       signinRoute db (authBody login password) =
         ⟨500, .message "Invalid password"⟩) ∧
    (∀ u, prismaUserFindUnique db login = some u →
       bcryptCompare password u.password = true →
       signinRoute db (authBody login password) =
         ⟨201, .auth ⟨excludePassword u, prismaCrmCardFindFirst db u.id⟩⟩) ∧
    (RespBody.message "User not found" ≠ RespBody.message "Invalid password") ∧
    (∀ b2 : ReqBody, (authValidate b2).isEmpty = false →
       (signinRoute db b2).status = 400 ∧
       ∀ m, (signinRoute db b2).body ≠ RespBody.message m) := by
  have hv : authValidate (authBody login password) = [] := by
    simp [authValidate, authBody, checkStringField, getField, hl, hp]
  have hgl : getStr (authBody login password) "login" = login := by
    simp [getStr, authBody, getField]
  have hgp : getStr (authBody login password) "password" = password := by
    simp [getStr, authBody, getField]
  refine ⟨?_, ?_, ?_, by simp, ?_⟩
  · intro hn
    simp [signinRoute, hv, hgl, hgp, signin, hn]
  · intro u hu hc
    simp [signinRoute, hv, hgl, hgp, signin, hu, hc]
  · intro u hu hc
    simp [signinRoute, hv, hgl, hgp, signin, hu, hc]
  · intro b2 h2
    simp [signinRoute, h2]

/-- The C2 theorem at concrete inputs: unknown login, wrong password, and
the matching credentials of the demo store. -/
theorem signin_spec_witness :
    signinRoute demoDb (authBody "bob" "pw") =
      ⟨500, .message "User not found"⟩ ∧
    signinRoute demoDb (authBody "alice" "wrong") =
      ⟨500, .message "Invalid password"⟩ ∧
    signinRoute demoDb (authBody "alice" "pw") =
      ⟨201, .auth ⟨⟨1, "alice"⟩, some { id := 1, user_id := 1, user_type_id := 1 }⟩⟩ :=
  ⟨(signin_spec demoDb "bob" "pw" (by decide) (by decide)).1 (by decide),
   (signin_spec demoDb "alice" "wrong" (by decide) (by decide)).2.1
     ⟨1, "alice", bcryptHash "pw"⟩ (by decide) (by decide),
   (signin_spec demoDb "alice" "pw" (by decide) (by decide)).2.2.1
     ⟨1, "alice", bcryptHash "pw"⟩ (by decide) (by decide)⟩

/-- C1: signup stores the hash of the password in a fresh User row, fails
with the store's unique-constraint (Conflict) failure when the login
already exists, fails with `UserType not found` when no UserType is
flagged `is_user`, and otherwise also creates the CrmCard linking the new
user to that type and returns the sanitized user (no password field)
together with the card. -/
theorem signup_spec (db : Db) (login password : String) :
    (db.users.any (fun u => u.login == login) = true →
       signup db login password = .error uniqueConstraintMsg) ∧
    (db.users.any (fun u => u.login == login) = false →
       prismaUserTypeFindFirst db = none →
       signup db login password = .error "UserType not found") ∧
    (∀ t, db.users.any (fun u => u.login == login) = false →
       prismaUserTypeFindFirst db = some t →
       signup db login password = .ok
         (⟨⟨db.nextUserId, login⟩,
           some { id := db.nextCrmCardId, user_id := db.nextUserId,
                  user_type_id := t.id }⟩,
          { db with
              users := db.users ++ [⟨db.nextUserId, login, bcryptHash password⟩],
              crmCards := db.crmCards ++
                [{ id := db.nextCrmCardId, user_id := db.nextUserId,
                   user_type_id := t.id }],
              nextUserId := db.nextUserId + 1,
              nextCrmCardId := db.nextCrmCardId + 1 })) := by
  refine ⟨?_, ?_, ?_⟩
  · intro hdup
    simp [signup, prismaUserCreate, hdup, Bind.bind, Except.bind]
  · intro hdup hty
    have hty' : List.find? (fun x => x.is_user) db.userTypes = none := hty
    simp [signup, prismaUserCreate, hdup, Bind.bind, Except.bind,
      prismaUserTypeFindFirst, hty']
  · intro t hdup hty
    have hmem : t ∈ db.userTypes := List.mem_of_find?_eq_some hty
    have hty' : List.find? (fun x => x.is_user) db.userTypes = some t := hty
    have htid : (db.userTypes.any (fun x => x.id == t.id)) = true :=
      List.any_eq_true.mpr ⟨t, hmem, by simp⟩
    simp only [signup, prismaUserCreate, hdup, Bind.bind, Except.bind,
      prismaUserTypeFindFirst, Bool.false_eq_true, reduceIte]
    rw [hty']
    simp only [prismaCrmCardCreate, List.any_append, List.any_cons,
      List.any_nil, beq_self_eq_true, Bool.or_true, Bool.or_false,
      Bool.not_true, Bool.false_eq_true, reduceIte, htid, excludePassword]

/-- The C1 theorem at concrete inputs: a fresh login on the demo store
succeeds with the expected rows, and re-signing-up `alice` hits the
unique-constraint failure. -/
theorem signup_spec_witness :
    signup demoDb "bob" "secret" = .ok
      (⟨⟨2, "bob"⟩, some { id := 2, user_id := 2, user_type_id := 1 }⟩,
       { demoDb with
           users := demoDb.users ++ [⟨2, "bob", bcryptHash "secret"⟩],
           crmCards := demoDb.crmCards ++
             [{ id := 2, user_id := 2, user_type_id := 1 }],
           nextUserId := 3, nextCrmCardId := 3 }) ∧
    signup demoDb "alice" "pw" = .error uniqueConstraintMsg :=
  ⟨(signup_spec demoDb "bob" "secret").2.2
     { id := 1, title := "user", is_user := true } (by decide) (by decide),
   (signup_spec demoDb "alice" "pw").1 (by decide)⟩

/-- A PUT /book/:id body that passes every validator. -/
def validBookBody : ReqBody :=
  [("title", JsonVal.str "T"), ("description", JsonVal.str "D"),
   ("price", JsonVal.int 10), ("published_at", JsonVal.str "2020-01-02"),
   ("stock", JsonVal.int 3)]

/-- C4 (code bug): a PUT /book/:id with a valid body for an id with no row
answers 500 carrying the store's record-not-found message — never the 404
the route's own dead null-check and swagger block promise — though it does
leave the store unchanged. -/
theorem updateBook_missing_row (db : Db) (id : Int) (b : ReqBody)
    (hv : bookValidate b = [])
    (hid : db.books.find? (fun r => r.id == id) = none) :
    updateBookRoute db id b = (⟨500, .message recordNotFoundMsg⟩, db) ∧
    404 ∈ bookPutSwaggerStatuses ∧
    (⟨500, RespBody.message recordNotFoundMsg⟩ : HttpResponse).status ≠ 404 := by
  refine ⟨?_, by decide, by decide⟩
  simp [updateBookRoute, hv, prismaBookUpdate, hid]

/-- The C4 theorem at a concrete input: updating book 1 in an empty store. -/
theorem updateBook_missing_row_witness :
    updateBookRoute {} 1 validBookBody =
      (⟨500, .message recordNotFoundMsg⟩, {}) :=
  (updateBook_missing_row {} 1 validBookBody (by decide) (by decide)).1

/-- The constraint a (possibly absent) id filter places on a row: absent
or falsy values constrain nothing. -/
def idConstraint (p : Option JsNum) (fld : Option Int) : Bool :=
  match keepTruthy p with
  | none => true
  | some v => idMatches v fld

/-- C5: filtering with `min_price = 10` and `max_price = 20` returns
exactly the books whose price lies in the inclusive range [10, 20], and in
general membership in the filtered list is the conjunction of one
constraint per supplied parameter — a parameter that is absent contributes
the constantly-true constraint, leaving that dimension unconstrained. -/
theorem bookFilter_spec (db : Db) :
    (getBookByFilter db
        { min_price := some (.num 10), max_price := some (.num 20) } =
      db.books.filter (fun b => decide (10 ≤ b.price) && decide (b.price ≤ 20))) ∧
    (∀ (f : BookFilters) (b : Book), b ∈ db.books →
      (b ∈ getBookByFilter db f ↔
        (idConstraint f.author_id b.author_id = true ∧
         idConstraint f.category_id b.category_id = true ∧
         idConstraint f.publisher_id b.publisher_id = true ∧
         geOk f.min_price b.price = true ∧
         leOk f.max_price b.price = true))) ∧
    (∀ fld, idConstraint none fld = true) ∧
    geOk none = (fun _ => true) ∧ leOk none = (fun _ => true) := by
  refine ⟨?_, ?_, by intro fld; rfl, rfl, rfl⟩
  · unfold getBookByFilter
    congr 1
  · intro f b hb
    simp [getBookByFilter, List.mem_filter, hb, matchesWhere, buildWhere,
      idConstraint, and_assoc]

/-- The C5 theorem at a concrete input: the demo book of price 15 passes
the [10, 20] filter with every other dimension unconstrained. -/
theorem bookFilter_spec_witness :
    demoBook ∈ getBookByFilter { demoDb with books := [demoBook] }
      { min_price := some (.num 10), max_price := some (.num 20) } :=
  ((bookFilter_spec { demoDb with books := [demoBook] }).2.1
    { min_price := some (.num 10), max_price := some (.num 20) }
    demoBook (by decide)).mpr (by decide)

/-- A store holding one book with a negative price (the schema leaves
prices unconstrained). -/
def negPriceDb : Db :=
  { books := [{ id := 1, title := "t", description := "d", price := -1,
                published_at := "2020-01-01", stock := 1 }],
    nextBookId := 2 }

/-- C9 counterexample: on the filter route, supplying `min_price=0` is NOT
the same as omitting it — the query value is the truthy string `"0"`, so
the controller receives numeric 0 and applies `price >= 0`, which drops
the negative-priced book the unfiltered query returns. -/
theorem filterZero_counterexample :
    bookFiltersRoute negPriceDb none none none (some "0") none ≠
    bookFiltersRoute negPriceDb none none none none none := by
  decide

/-- C9 amended: a zero-valued id parameter (author_id, category_id,
publisher_id) is skipped by the controller's falsiness check and
constrains nothing, but `min_price=0` survives the route's truthiness
check on the raw string `"0"` and is applied as the lower price bound
`0 <= price`, which excludes negative-priced rows. -/
theorem filterZero_amended :
    (∀ db, bookFiltersRoute db (some "0") none none none none =
           bookFiltersRoute db none none none none none) ∧
    (∀ db, bookFiltersRoute db none (some "0") none none none =
           bookFiltersRoute db none none none none none) ∧
    (∀ db, bookFiltersRoute db none none (some "0") none none =
           bookFiltersRoute db none none none none none) ∧
    (∀ db, bookFiltersRoute db none none none (some "0") none =
       ⟨200, .books (getBookByFilter db { min_price := some (.num 0) })⟩) ∧
    getBookByFilter negPriceDb { min_price := some (.num 0) } = [] ∧
    getBookByFilter negPriceDb {} = negPriceDb.books := by
  refine ⟨?_, ?_, ?_, ?_, by decide, by decide⟩ <;> intro db <;> rfl

/-- The address-fields-only body for PUT /crm_address/:id. -/
def addressBody (country city street house apartment : String) (cid : Int) :
    ReqBody :=
  [("country", JsonVal.str country), ("city", JsonVal.str city),
   ("street", JsonVal.str street), ("house", JsonVal.str house),
   ("apartment", JsonVal.str apartment), ("crm_crard_id", JsonVal.int cid)]

/-- C10: the PUT /crm_address/:id validators name the payment-card fields,
not the address fields (unlike the POST), so any body carrying only the
address fields — whatever their values — is rejected with 400 and
field-level errors for the card fields, the store untouched. -/
theorem crmAddressPut_validates_card_fields (db : Db) (id : Int)
    (country city street house apartment : String) (cid : Int) :
    updateCrmAddressRoute db id
        (addressBody country city street house apartment cid) =
      (⟨400, .fieldErrors ["card_title", "card_number", "date_end"]⟩, db) ∧
    crmAddressPutValidatedFields =
      ["card_title", "card_number", "date_end", "crm_crard_id"] ∧
    "country" ∉ crmAddressPutValidatedFields ∧
    "country" ∈ crmAddressPostValidatedFields := by
  refine ⟨?_, by decide, by decide, by decide⟩
  simp [updateCrmAddressRoute, crmAddressPutValidate, checkStringField,
    checkDateField, checkIntField, getField, addressBody, List.find?]

end BS3
